import Mathlib

/-!
Shallow embedding of the Kubernetes log-ingestion core of the `gonzo`
repository (Go sources: `src/internal/k8s/watcher.go` and the unnamed parts
`part_000` .. `part_002` of the same `k8s` package), together with theorems
settling the frozen claims about it.

Log lines are modelled as lists of characters standing for the byte
sequences Go indexes with `line[i]`; every input occurring in the claims is
ASCII, where the two views coincide byte for byte.
-/

/-- Total indexing standing for Go's `line[i]` byte access; every access the
source performs is guarded in range, so the default is never observable on
the source's paths. -/
def getc (l : List Char) (i : Nat) : Char :=
  l.getD i (Char.ofNat 0)

/-- The loop body condition of the scan in `enrichLogLine`
(`part_002` line 141): `line[i] == 'Z' && i+1 < len(line) && line[i+1] == ' '`. -/
def zSpaceAt (l : List Char) (i : Nat) : Bool :=
  (getc l i == 'Z') && decide (i + 1 < l.length) && (getc l (i + 1) == ' ')

/-- The bounded scan of `enrichLogLine` (`part_002` lines 140-146):
`for i := 20; i < min(35, len(line)-1); i++`, returning the first index
where `zSpaceAt` holds (the `break`), if any. -/
def findZSpace (l : List Char) : Option Nat :=
  (List.range' 20 (min 35 (l.length - 1) - 20)).find? (zSpaceAt l)

/-- Timestamp stripping of `enrichLogLine` (`part_002` lines 133-148): under
the positional guard `len(line) > 31 && line[4]=='-' && line[7]=='-' &&
line[10]=='T'`, strip up to and including the first `"Z "` found by the
bounded scan (`line[i+2:]`); otherwise the line is returned unchanged. The
source's enclosing `len(line) > 0` test is subsumed by `len(line) > 31`. -/
def stripTimestamp (l : List Char) : List Char :=
  if decide (l.length > 31) && (getc l 4 == '-') && (getc l 7 == '-')
      && (getc l 10 == 'T') then
    match findZSpace l with
    | some i => l.drop (i + 2)
    | none => l
  else l

/-- The combined heuristic of `enrichLogLine`: the positional guard holds and
the bounded scan finds a `"Z "`; exactly when this is true the body differs
from the raw line by the stripped timestamp. -/
def tsDetected (l : List Char) : Bool :=
  (decide (l.length > 31) && (getc l 4 == '-') && (getc l 7 == '-')
      && (getc l 10 == 'T'))
    && (findZSpace l).isSome

/-- Body of the enriched record: the raw line with the timestamp stripped
when detected (`part_002` lines 134-148). -/
def enrichedBody (line : String) : String :=
  String.mk (stripTimestamp line.data)

/-- Lower-case hexadecimal digit, as produced by Go's `encoding/json` for
`\u00xx` escapes. -/
def hexDigit (n : Nat) : Char :=
  if n < 10 then Char.ofNat (48 + n) else Char.ofNat (87 + n)

/-- Per-character escaping of Go's `encoding/json` default (HTML-escaping)
string encoder: `"` and `\` and the named control escapes, `<` `>` `&` as
`\u00xx`, remaining control characters as `\u00xx`, and U+2028/U+2029. -/
def escChar (c : Char) : List Char :=
  if c = '"' then ['\\', '"']
  else if c = '\\' then ['\\', '\\']
  else if c = '\n' then ['\\', 'n']
  else if c = '\r' then ['\\', 'r']
  else if c = '\t' then ['\\', 't']
  else if c = '<' then ['\\', 'u', '0', '0', '3', 'c']
  else if c = '>' then ['\\', 'u', '0', '0', '3', 'e']
  else if c = '&' then ['\\', 'u', '0', '0', '2', '6']
  else if c.toNat < 32 then
    ['\\', 'u', '0', '0', hexDigit (c.toNat / 16), hexDigit (c.toNat % 16)]
  else if c.toNat = 0x2028 then ['\\', 'u', '2', '0', '2', '8']
  else if c.toNat = 0x2029 then ['\\', 'u', '2', '0', '2', '9']
  else [c]

/-- JSON string literal for `s`, Go `encoding/json` style. -/
def quoteJSON (s : String) : String :=
  "\"" ++ String.mk (s.data.map escChar).flatten ++ "\""

/-- Serialization of one attribute entry. Go serializes each
`map[string]interface{}` with its keys in sorted order, so `"key"` precedes
`"value"` (`part_002` lines 151-176, 200). -/
def attrJSON (kv : String × String) : String :=
  "\x7b\"key\":" ++ quoteJSON kv.1 ++ ",\"value\":\x7b\"stringValue\":"
    ++ quoteJSON kv.2 ++ "\x7d\x7d"

/-- The four identity attributes, in the order the source lists them
(`part_002` lines 151-176). -/
def identityAttrs (ns podName containerName nodeName : String) :
    List (String × String) :=
  [("k8s.namespace", ns), ("k8s.pod", podName),
   ("k8s.container", containerName), ("k8s.node", nodeName)]

/-- Attribute construction of `enrichLogLine` (`part_002` lines 150-188): the
identity attributes followed by one `k8s.label.<key>` entry appended per pod
label, in the order `labelsIter` in which Go's `range` over the label map
happens to visit them — that order is unspecified and randomized by the Go
runtime, so it is an explicit parameter here. -/
def buildAttrs (ns podName containerName nodeName : String)
    (labelsIter : List (String × String)) : List (String × String) :=
  labelsIter.foldl
    (fun acc kv => acc ++ [("k8s.label." ++ kv.1, kv.2)])
    (identityAttrs ns podName containerName nodeName)

/-- Full `enrichLogLine` (`part_002` lines 128-208): strip the timestamp,
build the attribute list, and serialize. Go's `json.Marshal` of the result
`map[string]interface{}` emits its keys sorted, so `"attributes"` precedes
`"body"`; the attributes array keeps the slice order. -/
def enrichLogLine (ns podName containerName nodeName : String)
    (labelsIter : List (String × String)) (line : String) : String :=
  "\x7b\"attributes\":["
    ++ String.intercalate ","
        ((buildAttrs ns podName containerName nodeName labelsIter).map attrJSON)
    ++ "],\"body\":\x7b\"stringValue\":" ++ quoteJSON (enrichedBody line)
    ++ "\x7d\x7d"

/-- The per-line emission of the `streamLogs` read loop run to stream end
without cancellation (`part_002` lines 100-116): each scanned line, when
non-empty, is enriched and handed to the output channel in order; empty
lines are skipped. -/
def processLines (ns podName containerName nodeName : String)
    (labelsIter : List (String × String)) (lines : List String) :
    List String :=
  lines.foldl
    (fun acc line =>
      if line == "" then acc
      else acc ++ [enrichLogLine ns podName containerName nodeName labelsIter line])
    []

/-- Pod phases of `corev1.PodPhase` as tested by `shouldWatchPod`
(`watcher.go` lines 173-178). -/
inductive PodPhase
  | pending
  | running
  | succeeded
  | failed
  | unknown
  deriving DecidableEq

/-- The pod fields the watcher reads (`watcher.go`): metadata namespace and
name, labels, status phase, the spec node name, container and init-container
names, and the names of init containers whose status currently reports a
running state (`pod.Status.InitContainerStatuses` with `State.Running != nil`,
lines 216-224). -/
structure PodInfo where
  ns : String
  name : String
  labels : List (String × String)
  phase : PodPhase
  nodeName : String
  containers : List String
  initContainers : List String
  initRunning : List String
  deriving DecidableEq

/-- `getStreamKey`-style `namespace/name` pod key used for the allow-list
(`watcher.go` line 166). -/
def podKey (p : PodInfo) : String :=
  p.ns ++ "/" ++ p.name

/-- `PodWatcher.shouldWatchPod` (`watcher.go` lines 157-181), with the
library selector `w.selector.Matches(labels.Set(pod.Labels))` abstracted as
the boolean function `sel` of the label set, and the allow-list map
`w.podNames` (built from a slice with every value `true`, lines 66-69)
represented by the underlying list, whose map lookup is list membership.
The three tests are sequential early returns, preserved as nested
conditionals in source order. -/
def shouldWatchPod (sel : List (String × String) → Bool)
    (allowList : List String) (p : PodInfo) : Bool :=
  if !(sel p.labels) then false
  else if decide (allowList.length > 0) && !(allowList.contains (podKey p)) then
    false
  else if !(p.phase == PodPhase.running) && !(p.phase == PodPhase.succeeded) then
    false
  else true

/-- The eligibility policy as §4.1 of the specification words it: labels
satisfy the selector, the `namespace/name` appears in a non-empty allow-list,
and the phase is Running or Succeeded. -/
def shouldWatchSpec (sel : List (String × String) → Bool)
    (allowList : List String) (p : PodInfo) : Prop :=
  sel p.labels = true
    ∧ (allowList ≠ [] → podKey p ∈ allowList)
    ∧ (p.phase = PodPhase.running ∨ p.phase = PodPhase.succeeded)

/-- The stream registry `w.streamers` with the id counter standing for
allocation of a new `PodLogStreamer` (`NewPodLogStreamer` + `Start`). An
entry is a `namespace/pod/container` key paired with the id of the streamer
holding it. -/
structure StreamReg where
  entries : List (String × Nat)
  nextId : Nat
  deriving DecidableEq

/-- The per-container critical section of `startPodStreams` (`watcher.go`
lines 189-210 and 232-250): under `w.mu`, if the key already has an entry
the section is left without any effect; otherwise a new streamer is created,
registered and started. -/
def ensureStream (r : StreamReg) (k : String) : StreamReg :=
  if (r.entries.map Prod.fst).contains k then r
  else { entries := r.entries ++ [(k, r.nextId)], nextId := r.nextId + 1 }

/-- The per-container body of `stopPodStreams` (`watcher.go` lines 262-281):
under `w.mu`, the streamer registered for the key, if any, is cancelled and
its entry deleted. -/
def removeStream (r : StreamReg) (k : String) : StreamReg :=
  { r with entries := r.entries.filter (fun e => !(e.1 == k)) }

/-- One atomic registry action: the mutex `w.mu` makes each check-then-insert
and check-then-remove section atomic, so an arbitrary interleaving of
concurrent Add/Update/Delete handler invocations is a sequence of these
actions. -/
inductive RegEvent
  | start (k : String)
  | stop (k : String)

/-- Apply one atomic registry action. -/
def applyRegEvent (r : StreamReg) : RegEvent → StreamReg
  | RegEvent.start k => ensureStream r k
  | RegEvent.stop k => removeStream r k

/-- Run a sequence of registry actions from the freshly constructed watcher
(`streamers: make(map[string]*PodLogStreamer)`, empty registry). -/
def runRegEvents (evs : List RegEvent) : StreamReg :=
  evs.foldl applyRegEvent { entries := [], nextId := 0 }

/-- Program counter of one `streamLogs` goroutine (`part_002` lines 100-116):
at the top of the scan loop; past a successful `Scan` at the outer
`select`/`default` cancellation check; holding the enriched line at the inner
send/`Done` `select`; exited; or stopped by the run-time panic a send on a
closed channel raises. -/
inductive SPC
  | scanTop
  | ctxCheck
  | sendSel
  | exited
  | panicked
  deriving DecidableEq

/-- Progress of the teardown path `KubernetesLogSource.Stop` (`part_001`
lines 94-105), whose middle is `PodWatcher.Stop` (`watcher.go` lines
290-304). -/
inductive TPC
  | running
  | cancelDone
  | watcherStopped
  | returned
  deriving DecidableEq

/-- Capacity of the facade's output channel (`part_001` line 33). -/
def chanCap : Nat := 1000

/-- Joint state of one streamer goroutine, the teardown caller, and the
output channel. `cancelled` is the watcher's root context (its cancellation
is observed by the streamer's derived child context), `closed` and `buf`
describe `lineChan`, `emitted` counts records handed to the channel,
`registryCleared` records `w.streamers = make(...)`, and `sentOnClosed`
records that a send was executed on the closed channel (a Go run-time
panic). -/
structure ShutState where
  spc : SPC
  stop : TPC
  cancelled : Bool
  closed : Bool
  buf : Nat
  emitted : Nat
  registryCleared : Bool
  sentOnClosed : Bool
  deriving DecidableEq

/-- Steps of the streamer goroutine. At `scanTop`, `scanner.Scan()` either
yields a (non-empty) line or reports end of stream. At `ctxCheck` the outer
`select` takes the `Done` case exactly when the context is cancelled, else
the `default` branch enriches and moves to the send `select`. At `sendSel`,
a `select` case that can proceed is chosen: a send on the closed channel can
proceed by panicking; a send on the open channel can proceed when the buffer
has room; the `Done` case can proceed when cancelled. -/
def streamerSteps (s : ShutState) : List ShutState :=
  match s.spc with
  | SPC.scanTop =>
      [{ s with spc := SPC.ctxCheck }, { s with spc := SPC.exited }]
  | SPC.ctxCheck =>
      if s.cancelled then [{ s with spc := SPC.exited }]
      else [{ s with spc := SPC.sendSel }]
  | SPC.sendSel =>
      (if s.closed then [{ s with spc := SPC.panicked, sentOnClosed := true }]
       else if s.buf < chanCap then
        [{ s with spc := SPC.scanTop, buf := s.buf + 1, emitted := s.emitted + 1 }]
       else []) ++
      (if s.cancelled then [{ s with spc := SPC.exited }] else [])
  | SPC.exited => []
  | SPC.panicked => []

/-- Steps of the caller of `KubernetesLogSource.Stop`. `running → cancelDone`
is the facade's `cancel()` plus the watcher's `cancel()` (the cascade sets
the streamer's context to cancelled). `cancelDone → watcherStopped` is
`w.wg.Wait()` followed by the registry reset: the wait group holds only the
cache-sync goroutines of `watchNamespace` (`watcher.go` line 147) — never the
streamer goroutines, which are spawned by a bare `go s.streamLogs()`
(`part_002` line 52) — so with the sync goroutines already gone this step is
always enabled, whatever the streamer is doing. `watcherStopped → returned`
is the facade's `s.wg.Wait()` (nothing was ever added to it) and
`close(s.lineChan)`. -/
def stopperSteps (s : ShutState) : List ShutState :=
  match s.stop with
  | TPC.running => [{ s with stop := TPC.cancelDone, cancelled := true }]
  | TPC.cancelDone =>
      [{ s with stop := TPC.watcherStopped, registryCleared := true }]
  | TPC.watcherStopped => [{ s with stop := TPC.returned, closed := true }]
  | TPC.returned => []

/-- The downstream consumer draining the channel. -/
def consumerSteps (s : ShutState) : List ShutState :=
  if s.buf > 0 then [{ s with buf := s.buf - 1 }] else []

/-- All interleaved successor states. -/
def nextStates (s : ShutState) : List ShutState :=
  streamerSteps s ++ stopperSteps s ++ consumerSteps s

/-- One interleaving step. -/
def ShutStep (s t : ShutState) : Prop :=
  t ∈ nextStates s

/-- Reachability under interleaving. -/
def ShutReach : ShutState → ShutState → Prop :=
  Relation.ReflTransGen ShutStep

/-- A reachable pre-stop steady state: one active streamer at the top of its
read loop (its informer cache long synced, so the wait group is empty), the
channel open and drained, `Stop` not yet called. -/
def shutInit : ShutState :=
  { spc := SPC.scanTop, stop := TPC.running, cancelled := false,
    closed := false, buf := 0, emitted := 0, registryCleared := false,
    sentOnClosed := false }

/-- Decidability of one interleaving step, by evaluating the successor
enumeration. -/
instance shutStepDecidable (s t : ShutState) : Decidable (ShutStep s t) :=
  inferInstanceAs (Decidable (t ∈ nextStates s))

/-- A selector matching everything (`labels.Everything()`, the parse of the
empty selector string). -/
def selAll : List (String × String) → Bool := fun _ => true

/-- Concrete pod `ns/a`, Running, no labels. -/
def cexPodA : PodInfo :=
  { ns := "ns", name := "a", labels := [], phase := PodPhase.running,
    nodeName := "n1", containers := ["c"], initContainers := [],
    initRunning := [] }

/-- Concrete pod `ns/b`, agreeing with `cexPodA` on labels and phase but not
on the name. -/
def cexPodB : PodInfo :=
  { ns := "ns", name := "b", labels := [], phase := PodPhase.running,
    nodeName := "n1", containers := ["c"], initContainers := [],
    initRunning := [] }

/-- A pod agreeing with `cexPodA` on namespace, name, labels and phase but
scheduled on a different node. -/
def cexPodA' : PodInfo :=
  { ns := "ns", name := "a", labels := [], phase := PodPhase.running,
    nodeName := "n2", containers := ["c", "d"], initContainers := [],
    initRunning := [] }

/-- A Pending pod used to witness the phase exclusion. -/
def cexPodPending : PodInfo :=
  { ns := "ns", name := "p", labels := [], phase := PodPhase.pending,
    nodeName := "n1", containers := ["c"], initContainers := [],
    initRunning := [] }

/-- A registry holding one live streamer, used to witness idempotence of
`startPodStreams`. -/
def cexReg : StreamReg :=
  { entries := [("ns/a/c", 0)], nextId := 1 }




theorem stripTimestamp_eq_of_not_detected (l : List Char)
    (h : tsDetected l = false) : stripTimestamp l = l := by
  unfold stripTimestamp
  by_cases hg : (decide (l.length > 31) && (getc l 4 == '-') && (getc l 7 == '-')
      && (getc l 10 == 'T')) = true
  · unfold tsDetected at h
    rw [hg, Bool.true_and] at h
    cases hfz : findZSpace l with
    | none => simp [hg, hfz]
    | some i => rw [hfz] at h; simp at h
  · simp [hg]

/-- C4: for the input line `"2024-01-15T10:30:45.123456789Z hello world"` the
enriched record's body is exactly `"hello world"`; for a line on which the
timestamp heuristic does not fire, such as `"hello world"`, the body equals
the input line unchanged. -/
theorem c4_timestamp_strip_roundtrip :
    enrichedBody "2024-01-15T10:30:45.123456789Z hello world" = "hello world"
    ∧ ∀ line : String, tsDetected line.data = false → enrichedBody line = line := by
  refine ⟨by decide, ?_⟩
  intro line h
  unfold enrichedBody
  rw [stripTimestamp_eq_of_not_detected line.data h]

/-- Witness for C4 at the concrete line `"hello world"`. -/
theorem c4_witness :
    tsDetected "hello world".data = false
    ∧ enrichedBody "hello world" = "hello world" :=
  ⟨by decide, c4_timestamp_strip_roundtrip.2 "hello world" (by decide)⟩

/-- C10 counterexample: this line's RFC3339 timestamp has no fractional
digits (its `Z` is at offset 19 and a space follows), yet it is longer than
31 bytes and the message happens to contain a `"Z "` inside the scan window,
so the heuristic fires and the body keeps neither the timestamp nor the
start of the message — the line is not passed through unchanged. -/
theorem c10_counterexample :
    getc ("2024-01-15T10:30:45Z abcdZ efghijklm").data 19 = 'Z'
    ∧ getc ("2024-01-15T10:30:45Z abcdZ efghijklm").data 20 = ' '
    ∧ ("2024-01-15T10:30:45Z abcdZ efghijklm").data.length = 36
    ∧ stripTimestamp ("2024-01-15T10:30:45Z abcdZ efghijklm").data
        = ("efghijklm").data := by
  decide

/-- C10 (amended): the heuristic only fires on a line of at least 32 bytes
whose `"Z "` lies at offsets 20 through `min 34 (len-2)`; any line of 31
bytes or fewer is passed through unchanged; and a line with no `"Z "`
anywhere in that window — in particular a timestamp whose `Z` sits at
offset 19 with no later coincidental `"Z "` — is passed through unchanged. -/
theorem c10_heuristic_window :
    (∀ l : List Char, stripTimestamp l ≠ l →
        32 ≤ l.length
        ∧ ∃ i, 20 ≤ i ∧ i ≤ min 34 (l.length - 2) ∧ zSpaceAt l i = true)
    ∧ (∀ l : List Char, l.length ≤ 31 → stripTimestamp l = l)
    ∧ (∀ l : List Char,
        (∀ i, 20 ≤ i → i ≤ min 34 (l.length - 2) → zSpaceAt l i = false) →
        stripTimestamp l = l) := by
  refine ⟨?_, ?_, ?_⟩
  · intro l h
    unfold stripTimestamp at h
    by_cases hg : (decide (l.length > 31) && (getc l 4 == '-') && (getc l 7 == '-')
        && (getc l 10 == 'T')) = true
    · have hlen : 31 < l.length := by
        have := hg
        simp only [Bool.and_eq_true, decide_eq_true_eq] at this
        exact this.1.1.1
      refine ⟨hlen, ?_⟩
      rw [hg] at h
      simp only [if_true] at h
      cases hfz : findZSpace l with
      | none => rw [hfz] at h; simp at h
      | some i =>
          have hp : zSpaceAt l i = true := List.find?_some hfz
          have hmem : i ∈ List.range' 20 (min 35 (l.length - 1) - 20) :=
            List.mem_of_find?_eq_some hfz
          have hrange := List.mem_range'_1.mp hmem
          exact ⟨i, hrange.1, by omega, hp⟩
    · rw [if_neg hg] at h
      exact absurd rfl h
  · intro l h
    unfold stripTimestamp
    have : decide (l.length > 31) = false := by simp; omega
    simp [this]
  · intro l h
    unfold stripTimestamp
    by_cases hg : (decide (l.length > 31) && (getc l 4 == '-') && (getc l 7 == '-')
        && (getc l 10 == 'T')) = true
    · have hlen : 31 < l.length := by
        have := hg
        simp only [Bool.and_eq_true, decide_eq_true_eq] at this
        exact this.1.1.1
      have hnone : findZSpace l = none := by
        unfold findZSpace
        rw [List.find?_eq_none]
        intro i hi
        have hrange := List.mem_range'_1.mp hi
        have : zSpaceAt l i = false := h i hrange.1 (by omega)
        simp [this]
      simp [hg, hnone]
    · simp [hg]

/-- Witness for C10 at concrete lines: a 24-byte no-fraction timestamp line
is passed through by the short-line clause, and the claim's own example from
the spec is passed through by the empty-window clause. -/
theorem c10_witness :
    ("2024-01-15T10:30:45Z msg").data.length ≤ 31
    ∧ stripTimestamp ("2024-01-15T10:30:45Z msg").data
        = ("2024-01-15T10:30:45Z msg").data :=
  ⟨by decide, c10_heuristic_window.2.1 ("2024-01-15T10:30:45Z msg").data (by decide)⟩

/-- C5: `shouldWatchPod` returns true exactly when the labels satisfy the
selector, the `namespace/name` is in the allow-list whenever that list is
non-empty, and the phase is Running or Succeeded; and any Pending, Failed or
Unknown pod is rejected. The definition keeps the source's three sequential
early-return tests in order, so each later predicate is only evaluated when
every earlier one passed. -/
theorem c5_should_watch_policy :
    (∀ (sel : List (String × String) → Bool) (allowList : List String)
        (p : PodInfo),
      shouldWatchPod sel allowList p = true ↔ shouldWatchSpec sel allowList p)
    ∧ (∀ (sel : List (String × String) → Bool) (allowList : List String)
        (p : PodInfo),
      p.phase = PodPhase.pending ∨ p.phase = PodPhase.failed
          ∨ p.phase = PodPhase.unknown →
        shouldWatchPod sel allowList p = false) := by
  constructor
  · intro sel allowList p
    unfold shouldWatchPod shouldWatchSpec
    cases hsel : sel p.labels with
    | false => simp [hsel]
    | true =>
        cases hempty : allowList with
        | nil =>
            cases hphase : p.phase <;> simp [hsel, hphase]
        | cons a t =>
            by_cases hmem : (a :: t).contains (podKey p) = true <;>
              cases hphase : p.phase <;>
                simp_all [List.elem_iff, hsel, hphase, hmem]
  · intro sel allowList p hp
    unfold shouldWatchPod
    rcases hp with h | h | h <;> simp [h]

/-- Witness for C5: the phase-exclusion clause applied at a concrete Pending
pod under the match-everything selector and an empty allow-list. -/
theorem c5_witness :
    cexPodPending.phase = PodPhase.pending
    ∧ shouldWatchPod selAll [] cexPodPending = false :=
  ⟨by decide, c5_should_watch_policy.2 selAll [] cexPodPending (Or.inl (by decide))⟩

/-- C6 counterexample: two pods agreeing on labels (both empty) and phase
(both Running), evaluated under the same configuration (match-everything
selector, allow-list `["ns/a"]`), get different booleans — `shouldWatchPod`
also reads the pod's namespace and name, not only the claimed triple. -/
theorem c6_counterexample :
    cexPodA.labels = cexPodB.labels
    ∧ cexPodA.phase = cexPodB.phase
    ∧ shouldWatchPod selAll ["ns/a"] cexPodA = true
    ∧ shouldWatchPod selAll ["ns/a"] cexPodB = false := by
  decide

/-- C6 (amended): `shouldWatchPod` is a pure function of exactly
(labels, namespace, name, allow-list, phase): two pods agreeing on labels,
namespace, name and phase get the same boolean under the same selector and
allow-list, whatever their other fields; re-evaluation on equal inputs is
definitionally the same boolean. -/
theorem c6_eligibility_determinism :
    ∀ (sel : List (String × String) → Bool) (allowList : List String)
      (p q : PodInfo),
      p.labels = q.labels → p.ns = q.ns → p.name = q.name → p.phase = q.phase →
      shouldWatchPod sel allowList p = shouldWatchPod sel allowList q := by
  intro sel allowList p q hl hns hname hph
  unfold shouldWatchPod podKey
  rw [hl, hns, hname, hph]

/-- Witness for C6 at two concrete pods differing only in node name and
container list. -/
theorem c6_witness :
    cexPodA.nodeName ≠ cexPodA'.nodeName
    ∧ shouldWatchPod selAll ["ns/a"] cexPodA
        = shouldWatchPod selAll ["ns/a"] cexPodA' :=
  ⟨by decide, c6_eligibility_determinism selAll ["ns/a"] cexPodA cexPodA'
    rfl rfl rfl rfl⟩

theorem foldl_append_singleton {α β : Type} (f : α → β) (ls : List α) :
    ∀ init : List β,
      ls.foldl (fun acc kv => acc ++ [f kv]) init = init ++ ls.map f := by
  induction ls with
  | nil => intro init; simp
  | cons a t ih => intro init; simp [ih]

/-- C8: for the pod with labels `{app: nginx}` in namespace `prod`, pod
`nginx-1`, container `web`, node `node-a`, the record's attribute list is
exactly the five claimed entries, in source order; and in general the
attribute list is the four identity attributes followed by one
`k8s.label.<key>` entry per pod label. -/
theorem c8_attribute_completeness :
    buildAttrs "prod" "nginx-1" "web" "node-a" [("app", "nginx")]
      = [("k8s.namespace", "prod"), ("k8s.pod", "nginx-1"),
         ("k8s.container", "web"), ("k8s.node", "node-a"),
         ("k8s.label.app", "nginx")]
    ∧ ∀ (ns podName containerName nodeName : String)
        (ls : List (String × String)),
        buildAttrs ns podName containerName nodeName ls
          = identityAttrs ns podName containerName nodeName
            ++ ls.map (fun kv => ("k8s.label." ++ kv.1, kv.2)) := by
  refine ⟨by decide, ?_⟩
  intro ns podName containerName nodeName ls
  unfold buildAttrs
  exact foldl_append_singleton _ ls _

set_option maxRecDepth 8192 in
/-- C3 counterexample: on the same pod identity and the same label mapping
`{a: 1, b: 2}`, two runs of `enrichLogLine` that differ only in the order in
which Go's randomized `range` over the label map happens to visit the two
labels serialize to different byte strings — the output is not byte-for-byte
reproducible for identical inputs, and the attribute order within the record
is not deterministic across runs. -/
theorem c3_iteration_order_changes_bytes :
    enrichLogLine "prod" "nginx-1" "web" "node-a" [("a", "1"), ("b", "2")] "hello"
      ≠ enrichLogLine "prod" "nginx-1" "web" "node-a" [("b", "2"), ("a", "1")] "hello" := by
  decide

theorem processLines_foldl (ns podName containerName nodeName : String)
    (labelsIter : List (String × String)) (lines : List String) :
    ∀ acc : List String,
      lines.foldl
        (fun a line =>
          if line == "" then a
          else a ++ [enrichLogLine ns podName containerName nodeName labelsIter line])
        acc
      = acc ++ (lines.filter (fun l => !(l == ""))).map
          (enrichLogLine ns podName containerName nodeName labelsIter) := by
  induction lines with
  | nil => intro acc; simp
  | cons a t ih =>
      intro acc
      rw [List.foldl_cons, ih, List.filter_cons]
      cases ha : (a == "") with
      | true => simp [ha]
      | false => simp [ha]

/-- C9 counterexample: a stream consisting of one (empty) input line yields
no output record at all, so "every input line yields a record handed to the
channel" fails — the loop skips empty lines. -/
theorem c9_counterexample :
    (processLines "prod" "nginx-1" "web" "node-a" [] [""]).length
      ≠ ([""] : List String).length := by
  decide

/-- C9 (amended): a read loop that runs to end of stream without
cancellation hands exactly one enriched record to the output channel per
non-empty input line, in input order, and hands nothing for empty lines. -/
theorem c9_record_per_nonempty_line :
    ∀ (ns podName containerName nodeName : String)
      (labelsIter : List (String × String)) (lines : List String),
      processLines ns podName containerName nodeName labelsIter lines
        = (lines.filter (fun l => !(l == ""))).map
            (enrichLogLine ns podName containerName nodeName labelsIter) := by
  intro ns podName containerName nodeName labelsIter lines
  unfold processLines
  simpa using processLines_foldl ns podName containerName nodeName labelsIter lines []

theorem ensureStream_nodup (r : StreamReg) (k : String)
    (h : (r.entries.map Prod.fst).Nodup) :
    ((ensureStream r k).entries.map Prod.fst).Nodup := by
  unfold ensureStream
  cases hc : (r.entries.map Prod.fst).contains k with
  | true => simpa [hc] using h
  | false =>
      have hk : k ∉ r.entries.map Prod.fst := by
        intro hmem
        rw [← List.elem_iff] at hmem
        exact absurd hmem (by simp [List.contains] at hc; simp [hc])
      simp only [hc, Bool.false_eq_true, if_false, List.map_append]
      simpa [List.nodup_append] using And.intro h hk

theorem removeStream_nodup (r : StreamReg) (k : String)
    (h : (r.entries.map Prod.fst).Nodup) :
    ((removeStream r k).entries.map Prod.fst).Nodup := by
  unfold removeStream
  exact ((List.filter_sublist r.entries).map Prod.fst).nodup h

theorem runRegEvents_inv (evs : List RegEvent) :
    ∀ r : StreamReg, (r.entries.map Prod.fst).Nodup →
      ((evs.foldl applyRegEvent r).entries.map Prod.fst).Nodup := by
  induction evs with
  | nil => intro r h; simpa using h
  | cons e t ih =>
      intro r h
      rw [List.foldl_cons]
      refine ih _ ?_
      cases e with
      | start k => exact ensureStream_nodup r k h
      | stop k => exact removeStream_nodup r k h

/-- C7: over every interleaving of the handlers' mutex-atomic registry
sections run from the freshly constructed watcher, the registry never holds
two entries for one StreamKey (its key list stays duplicate-free, so each
key's count is at most one); and the per-container section of
`startPodStreams` on a key that is already registered leaves the registry —
entries and streamer-id counter alike — unchanged, creating and starting no
second streamer. -/
theorem c7_at_most_one_streamer :
    (∀ (evs : List RegEvent) (k : String),
        ((runRegEvents evs).entries.map Prod.fst).Nodup
        ∧ ((runRegEvents evs).entries.map Prod.fst).count k ≤ 1)
    ∧ (∀ (r : StreamReg) (k : String),
        (r.entries.map Prod.fst).contains k = true → ensureStream r k = r) := by
  constructor
  · intro evs k
    have hnd : ((runRegEvents evs).entries.map Prod.fst).Nodup :=
      runRegEvents_inv evs { entries := [], nextId := 0 } (by simp)
    exact ⟨hnd, List.nodup_iff_count_le_one.mp hnd k⟩
  · intro r k h
    unfold ensureStream
    rw [if_pos h]

/-- Witness for C7: starting the already-registered key `ns/a/c` on a
registry holding one live streamer is a no-op. -/
theorem c7_witness :
    (cexReg.entries.map Prod.fst).contains "ns/a/c" = true
    ∧ ensureStream cexReg "ns/a/c" = cexReg :=
  ⟨by decide, c7_at_most_one_streamer.2 cexReg "ns/a/c" (by decide)⟩

/-- C1: refuted on the code — a send on the closed output channel is
reachable. The streamer goroutine is spawned by a bare `go s.streamLogs()`
and belongs to no wait group, so `KubernetesLogSource.Stop` can cancel, run
`PodWatcher.Stop` to completion and `close(s.lineChan)` while the streamer
sits between its cancellation check and its channel send; the streamer's
`select` may then choose the send case on the closed channel, which Go
defines to panic. The exhibited interleaving: streamer passes the `default`
check and reaches the send `select`; `Stop` then runs to completion; the
streamer executes the send. -/
theorem c1_send_on_closed_channel :
    ∃ s : ShutState, ShutReach shutInit s ∧ s.sentOnClosed = true := by
  refine ⟨{ spc := SPC.panicked, stop := TPC.returned, cancelled := true,
            closed := true, buf := 0, emitted := 0, registryCleared := true,
            sentOnClosed := true }, ?_, rfl⟩
  have h1 : ShutStep shutInit
      { spc := SPC.ctxCheck, stop := TPC.running, cancelled := false,
        closed := false, buf := 0, emitted := 0, registryCleared := false,
        sentOnClosed := false } := by decide
  have h2 : ShutStep
      { spc := SPC.ctxCheck, stop := TPC.running, cancelled := false,
        closed := false, buf := 0, emitted := 0, registryCleared := false,
        sentOnClosed := false }
      { spc := SPC.sendSel, stop := TPC.running, cancelled := false,
        closed := false, buf := 0, emitted := 0, registryCleared := false,
        sentOnClosed := false } := by decide
  have h3 : ShutStep
      { spc := SPC.sendSel, stop := TPC.running, cancelled := false,
        closed := false, buf := 0, emitted := 0, registryCleared := false,
        sentOnClosed := false }
      { spc := SPC.sendSel, stop := TPC.cancelDone, cancelled := true,
        closed := false, buf := 0, emitted := 0, registryCleared := false,
        sentOnClosed := false } := by decide
  have h4 : ShutStep
      { spc := SPC.sendSel, stop := TPC.cancelDone, cancelled := true,
        closed := false, buf := 0, emitted := 0, registryCleared := false,
        sentOnClosed := false }
      { spc := SPC.sendSel, stop := TPC.watcherStopped, cancelled := true,
        closed := false, buf := 0, emitted := 0, registryCleared := true,
        sentOnClosed := false } := by decide
  have h5 : ShutStep
      { spc := SPC.sendSel, stop := TPC.watcherStopped, cancelled := true,
        closed := false, buf := 0, emitted := 0, registryCleared := true,
        sentOnClosed := false }
      { spc := SPC.sendSel, stop := TPC.returned, cancelled := true,
        closed := true, buf := 0, emitted := 0, registryCleared := true,
        sentOnClosed := false } := by decide
  have h6 : ShutStep
      { spc := SPC.sendSel, stop := TPC.returned, cancelled := true,
        closed := true, buf := 0, emitted := 0, registryCleared := true,
        sentOnClosed := false }
      { spc := SPC.panicked, stop := TPC.returned, cancelled := true,
        closed := true, buf := 0, emitted := 0, registryCleared := true,
        sentOnClosed := true } := by decide
  exact Relation.ReflTransGen.head h1 (Relation.ReflTransGen.head h2
    (Relation.ReflTransGen.head h3 (Relation.ReflTransGen.head h4
      (Relation.ReflTransGen.head h5 (Relation.ReflTransGen.head h6
        Relation.ReflTransGen.refl)))))

/-- C2: refuted on the code — from a reachable pre-stop state,
`PodWatcher.Stop` can return (registry cleared, `wg.Wait` done — the wait
group only ever holds the cache-sync goroutines, never the streamers) while
a streamer goroutine has not exited, and that goroutine then hands one more
record to the output channel. -/
theorem c2_emission_after_watcher_stop :
    ∃ s t : ShutState, ShutReach shutInit s
      ∧ s.stop = TPC.watcherStopped ∧ s.registryCleared = true
      ∧ s.spc ≠ SPC.exited
      ∧ ShutStep s t ∧ t.emitted = s.emitted + 1 := by
  refine ⟨{ spc := SPC.sendSel, stop := TPC.watcherStopped, cancelled := true,
            closed := false, buf := 0, emitted := 0, registryCleared := true,
            sentOnClosed := false },
          { spc := SPC.scanTop, stop := TPC.watcherStopped, cancelled := true,
            closed := false, buf := 1, emitted := 1, registryCleared := true,
            sentOnClosed := false }, ?_, rfl, rfl, by decide, by decide, rfl⟩
  have h1 : ShutStep shutInit
      { spc := SPC.ctxCheck, stop := TPC.running, cancelled := false,
        closed := false, buf := 0, emitted := 0, registryCleared := false,
        sentOnClosed := false } := by decide
  have h2 : ShutStep
      { spc := SPC.ctxCheck, stop := TPC.running, cancelled := false,
        closed := false, buf := 0, emitted := 0, registryCleared := false,
        sentOnClosed := false }
      { spc := SPC.sendSel, stop := TPC.running, cancelled := false,
        closed := false, buf := 0, emitted := 0, registryCleared := false,
        sentOnClosed := false } := by decide
  have h3 : ShutStep
      { spc := SPC.sendSel, stop := TPC.running, cancelled := false,
        closed := false, buf := 0, emitted := 0, registryCleared := false,
        sentOnClosed := false }
      { spc := SPC.sendSel, stop := TPC.cancelDone, cancelled := true,
        closed := false, buf := 0, emitted := 0, registryCleared := false,
        sentOnClosed := false } := by decide
  have h4 : ShutStep
      { spc := SPC.sendSel, stop := TPC.cancelDone, cancelled := true,
        closed := false, buf := 0, emitted := 0, registryCleared := false,
        sentOnClosed := false }
      { spc := SPC.sendSel, stop := TPC.watcherStopped, cancelled := true,
        closed := false, buf := 0, emitted := 0, registryCleared := true,
        sentOnClosed := false } := by decide
  exact Relation.ReflTransGen.head h1 (Relation.ReflTransGen.head h2
    (Relation.ReflTransGen.head h3 (Relation.ReflTransGen.head h4
      Relation.ReflTransGen.refl)))
